import Mathlib

/-!
Verification of the `uncon` / `uncon_derive` crates.

The development shallowly embeds the two source files:

* `derive/src/lib.rs` — the procedural derive `impl_from_unchecked`, which
  inspects a `syn 0.11` `DeriveInput` and emits `FromUnchecked`
  implementations.  The attribute syntax tree (`MetaItem`,
  `NestedMetaItem`, `VariantData`, `Variant`, `Body`) is embedded as
  inductive types carrying exactly the information the generator
  inspects; generated token streams are embedded as a list of
  `GeneratedImpl` records whose `body` field captures the three body
  templates the generator can quote.  Panics and `expect` failures are
  embedded as `Except.error` carrying the source message text.  Generic
  parameters are carried through generation verbatim and never inspected,
  so they are not modelled.

* `src/lib.rs` — the trait pair `FromUnchecked` / `IntoUnchecked`, its
  blanket implementation, and the built-in owned byte-buffer to `String`
  conversions.  Types are embedded as Lean type classes over Lean types;
  byte buffers are lists of bytes and `String` is a record holding its
  raw UTF-8 bytes with no validity invariant (the conversions perform no
  validation).

A note on one source line: in `impl_from_unchecked` the loop over
`#[uncon(other(...))]` directives declares the accumulator
`other_items` but its body reads `items.extend(mi)`, and no binding
named `items` is in scope at that point (the `items` binding of the enum
arm has left scope).  As written the crate does not compile; under any
repair that keeps the statement without touching `other_items`, the
accumulator stays empty.  `impl_from_unchecked` below embeds that
as-written behaviour (empty secondary list), and
`impl_from_unchecked_intended` embeds the evident intent
(`other_items.extend(mi)`), which the crate documentation tests assume.
-/

namespace Uncon

mutual

/-- Attribute syntax tree of `syn 0.11`: a `MetaItem` is a word
(`uncon`), a list (`repr(u8)`), or a name-value pair (`path = "lit"`). -/
inductive MetaItem : Type where
  | word : String → MetaItem
  | list : String → List NestedMetaItem → MetaItem
  | nameValue : String → String → MetaItem

/-- A `NestedMetaItem` is either a full `MetaItem` or a bare literal. -/
inductive NestedMetaItem : Type where
  | metaItem : MetaItem → NestedMetaItem
  | literal : String → NestedMetaItem
end

/-- Embedding of `MetaItem::name()`: the identifier of the item. -/
def MetaItem.name : MetaItem → String
  | .word n => n
  | .list n _ => n
  | .nameValue n _ => n

/-- One field of a struct or variant: optional name, and its type
(rendered as the token text the generator splices back out). -/
structure Field where
  ident : Option String
  ty : String
deriving DecidableEq

/-- Embedding of `syn::VariantData`: named fields, tuple fields, or a unit shape. -/
inductive VariantData : Type where
  | structFields : List Field → VariantData
  | tuple : List Field → VariantData
  | unit : VariantData
deriving DecidableEq

/-- Embedding of `VariantData::fields()`. -/
def VariantData.fields : VariantData → List Field
  | .structFields fs => fs
  | .tuple fs => fs
  | .unit => []

/-- Whether the variant data is the unit shape. -/
def VariantData.isUnit : VariantData → Bool
  | .unit => true
  | _ => false

/-- One enum variant: its identifier and shape. -/
structure Variant where
  ident : String
  data : VariantData
deriving DecidableEq

/-- Embedding of `syn::Body`: an enum with variants or a struct with variant data. -/
inductive Body : Type where
  | enum : List Variant → Body
  | struct : VariantData → Body

/-- The derive input: type name, attribute values (each attribute's
`MetaItem`), and the body.  Generics are passed through generation
unchanged and never inspected, so they are not modelled. -/
structure DeriveInput where
  ident : String
  attrs : List MetaItem
  body : Body

/-- Embedding of `as_item` (`derive/src/lib.rs:98`): project a nested meta item to a
meta item, dropping literals. -/
def as_item : NestedMetaItem → Option MetaItem
  | .metaItem m => some m
  | .literal _ => none

/-- Embedding of `meta_items` (`derive/src/lib.rs:106`): among `items`, keep the
argument lists of the `MetaItem::List` entries named `ident`. -/
def meta_items (items : List MetaItem) (ident : String) : List (List NestedMetaItem) :=
  items.filterMap fun item =>
    match item with
    | MetaItem.list id its => if id == ident then some its else none
    | _ => none

/-- The integer-representation name test, embedding the regex
`^(i|u)(\d+|size)$` of `derive/src/lib.rs:137`: the name starts with
`i` or `u` and the remainder is a nonempty digit sequence or exactly
`size`. -/
def isIntTyName (s : String) : Bool :=
  match s.data with
  | [] => false
  | c :: rest =>
      (c == 'i' || c == 'u') &&
      ((!rest.isEmpty && rest.all fun d => d.isDigit) || rest == ['s', 'i', 'z', 'e'])

/-- The repr scan of `derive/src/lib.rs:139-147`: the first argument of
the attribute that is a meta item whose name matches `isIntTyName`. -/
def first_int_repr (items : List NestedMetaItem) : Option String :=
  (items.filterMap fun item =>
    match item with
    | NestedMetaItem.metaItem m => if isIntTyName m.name then some m.name else none
    | NestedMetaItem.literal _ => none).head?

/-- The first variant that is not a unit variant — the one the loop of
`derive/src/lib.rs:129-134` panics on. -/
def find_non_unit (variants : List Variant) : Option Variant :=
  variants.find? fun v => !v.data.isUnit

/-- Body template of a generated `from_unchecked`, the three quoted
shapes of `derive/src/lib.rs`: `::core::mem::transmute(inner)` (enum
primary, line 149), `#name \x7b #ident: inner \x7d` (named-field struct,
line 163), `#name(inner)` (tuple struct, line 165), and
`Self::from_unchecked(inner as #ty)` (secondary implementation, line
187, recording the primary type `ty` cast to). -/
inductive ImplBody : Type where
  | transmute : ImplBody
  | structNamed : String → ImplBody
  | structPos : ImplBody
  | castPrimary : String → ImplBody
deriving DecidableEq

/-- One emitted `impl ::uncon::FromUnchecked<#src> for #target`:
the source type token, the target type name, and the body template. -/
structure GeneratedImpl where
  src : String
  target : String
  body : ImplBody
deriving DecidableEq

/-- The struct primary body of `derive/src/lib.rs:162-166`: named field
if the field has an identifier, positional otherwise. -/
def structInit (fid : Option String) : ImplBody :=
  match fid with
  | some id => ImplBody.structNamed id
  | none => ImplBody.structPos

/-- The shape analysis of `derive/src/lib.rs:127-171`: compute the
primary source type and primary body, or fail with the source's panic
or `expect` message.  For an enum: panic on the first non-unit variant
(naming it), `expect` the first `repr` attribute, then `expect` an
integer-named argument in it; the body is the transmute.  For a struct:
require exactly one field; the body places `inner` in that field. -/
def classify (ast : DeriveInput) : Except String (String × ImplBody) :=
  match ast.body with
  | Body.enum variants =>
      match find_non_unit variants with
      | some v => Except.error ("Found non-unit variant \x27" ++ v.ident ++ "\x27")
      | none =>
          match (meta_items ast.attrs "repr").head? with
          | none => Except.error "Could not find `#[repr]` attribute"
          | some items =>
              match first_int_repr items with
              | none => Except.error "Could not find integer repr for conversion"
              | some r => Except.ok (r, ImplBody.transmute)
  | Body.struct data =>
      match data.fields with
      | [field] => Except.ok (field.ty, structInit field.ident)
      | _ => Except.error "`FromUnchecked` can only be derived for types with a single field"

/-- The intended accumulation of `derive/src/lib.rs:175-179`: for each
`#[uncon(...)]` attribute, for each `other(...)` list among its meta
item arguments, append that list's entries in order.  (The source line
reads `items.extend(mi)` with no `items` in scope; the accumulator it
was meant to extend is `other_items`.) -/
def collect_other (attrs : List MetaItem) : List NestedMetaItem :=
  ((meta_items attrs "uncon").map fun ai =>
    (meta_items (ai.filterMap as_item) "other").flatten).flatten

/-- The emission of `derive/src/lib.rs:181-194`: for each collected
entry that is a plain word (`MetaItem::Word`), one secondary
implementation casting to the primary type `ty`; every other entry
shape yields nothing. -/
def tys_impl (name ty : String) (other_items : List NestedMetaItem) : List GeneratedImpl :=
  other_items.filterMap fun item =>
    match item with
    | NestedMetaItem.metaItem (MetaItem.word id) =>
        some { src := id, target := name, body := ImplBody.castPrimary ty }
    | _ => none

/-- The final quote of `derive/src/lib.rs:196-205`: the primary
implementation followed by the secondary implementations, or the
classification failure with nothing emitted. -/
def generate (ast : DeriveInput) (other_items : List NestedMetaItem) :
    Except String (List GeneratedImpl) :=
  match classify ast with
  | Except.error e => Except.error e
  | Except.ok (ty, init) =>
      Except.ok ({ src := ty, target := ast.ident, body := init } :: tys_impl ast.ident ty other_items)

/-- Embedding of `impl_from_unchecked` as written: the secondary accumulator
`other_items` is declared and never extended (the loop body extends an
out-of-scope name), so emission sees an empty list. -/
def impl_from_unchecked (ast : DeriveInput) : Except String (List GeneratedImpl) :=
  generate ast []

/-- Embedding of `impl_from_unchecked` with the accumulation loop doing what it was
evidently meant to do (`other_items.extend(mi)`), as the crate's own
documentation examples assume. -/
def impl_from_unchecked_intended (ast : DeriveInput) : Except String (List GeneratedImpl) :=
  generate ast (collect_other ast.attrs)

/-- Embedding of `uncon::FromUnchecked<T>` (`src/lib.rs:128-131`): construct a
`Self` (here `α`) from a `T` (here `β`) with no validation.  The
unsafety contract is a caller obligation with no runtime content, so
the operation is a plain function. -/
class FromUnchecked (α : Type) (β : Type) where
  from_unchecked : β → α

/-- Embedding of `uncon::IntoUnchecked<T>` (`src/lib.rs:134-137`). -/
class IntoUnchecked (α : Type) (β : Type) where
  into_unchecked : α → β

/-- The blanket implementation of `src/lib.rs:139-144`: every
`U: FromUnchecked<T>` makes `T: IntoUnchecked<U>` by delegating to
`U::from_unchecked`. -/
instance (T U : Type) [FromUnchecked U T] : IntoUnchecked T U where
  into_unchecked x := FromUnchecked.from_unchecked x

/-- An owned growable byte buffer, `Vec<u8>`. -/
structure VecBytes where
  bytes : List Nat
deriving DecidableEq

/-- An owned fixed-capacity boxed byte buffer, `Box<[u8]>`. -/
structure BoxedBytes where
  bytes : List Nat
deriving DecidableEq

/-- An owned `String`, modelled by its raw UTF-8 byte content with no
validity invariant: the unchecked conversions adopt arbitrary bytes. -/
structure OwnedString where
  utf8 : List Nat
deriving DecidableEq

/-- Embedding of `Box::<[u8]>::into_vec`: the same bytes in growable form. -/
def BoxedBytes.into_vec (b : BoxedBytes) : VecBytes :=
  { bytes := b.bytes }

/-- Embedding of `String::from_utf8_unchecked`: adopt the buffer, no validation. -/
def from_utf8_unchecked (v : VecBytes) : OwnedString :=
  { utf8 := v.bytes }

/-- The built-in of `src/lib.rs:174-180`: `String` from `Vec<u8>` by
`String::from_utf8_unchecked`. -/
instance : FromUnchecked OwnedString VecBytes where
  from_unchecked v := from_utf8_unchecked v

/-- The built-in of `src/lib.rs:182-188`: `String` from `Box<[u8]>` by
`utf8.into_vec().into_unchecked()`. -/
instance : FromUnchecked OwnedString BoxedBytes where
  from_unchecked b := IntoUnchecked.into_unchecked b.into_vec

/-- A value of a C-like enum whose variants are `variants`, identified
by the ordinal of its variant in declaration order.  For a fieldless
enum with an integer `repr` and no explicit discriminants, Rust assigns
variant `j` the discriminant `j`, so the ordinal is also the value's
underlying bit pattern. -/
structure EnumVal (variants : List String) where
  ordinal : Fin variants.length

/-- The underlying bit pattern (discriminant) of an enum value. -/
def EnumVal.discriminant {variants : List String} (v : EnumVal variants) : Nat :=
  v.ordinal.val

/-- Runtime meaning of a generated primary body for an enum target on
an integer input: `transmute` reinterprets the bit pattern `i` as the
enum value with discriminant `i`, with no match over variants.  An
out-of-range input is undefined behaviour in the source contract and is
left unmodelled (`none`); other body templates do not apply to an enum
target. -/
def runEnumBody (variants : List String) (b : ImplBody) (i : Nat) :
    Option (EnumVal variants) :=
  match b with
  | ImplBody.transmute =>
      if h : i < variants.length then some { ordinal := ⟨i, h⟩ } else none
  | _ => none

/-- A value of a single-field wrapper whose field has (Lean) type `F`:
the wrapper holds exactly its field. -/
structure WrapperVal (F : Type) where
  inner : F

/-- Runtime meaning of a generated primary body for a struct target:
both the named-field and the positional template place the input value
`v` in the single field.  Other body templates do not apply. -/
def runStructBody {F : Type} (b : ImplBody) (v : F) : Option (WrapperVal F) :=
  match b with
  | ImplBody.structNamed _ => some { inner := v }
  | ImplBody.structPos => some { inner := v }
  | _ => none

/-- The ten standard integer kinds named by the specification:
fixed-width 8/16/32/64-bit plus pointer-width, signed and unsigned. -/
def tenIntKinds : List String :=
  ["i8", "i16", "i32", "i64", "isize", "u8", "u16", "u32", "u64", "usize"]

/-- Unit variants named by `vnames`, in order. -/
def unitVariants (vnames : List String) : List Variant :=
  vnames.map fun n => { ident := n, data := VariantData.unit }

/-- A data-less enum declaration named `name` with variants `vnames`
and attribute values `attrs`. -/
def mkUnitEnum (name : String) (vnames : List String) (attrs : List MetaItem) : DeriveInput :=
  { ident := name, attrs := attrs, body := Body.enum (unitVariants vnames) }

/-- A `repr(...)` attribute value with the given arguments. -/
def reprAttr (args : List NestedMetaItem) : MetaItem :=
  MetaItem.list "repr" args

/-- A `uncon(other(...))` attribute value with the given arguments. -/
def unconOtherAttr (args : List NestedMetaItem) : MetaItem :=
  MetaItem.list "uncon" [NestedMetaItem.metaItem (MetaItem.list "other" args)]

/-- A plain word argument. -/
def wordArg (s : String) : NestedMetaItem :=
  NestedMetaItem.metaItem (MetaItem.word s)

/-- Whether an `Except` result is the error case. -/
def isErr {ε α : Type} : Except ε α → Bool
  | Except.error _ => true
  | Except.ok _ => false

theorem find_non_unit_unitVariants (vnames : List String) :
    find_non_unit (unitVariants vnames) = none := by
  induction vnames with
  | nil => rfl
  | cons n ns _ =>
      simp [unitVariants, find_non_unit, List.find?, VariantData.isUnit]

theorem unitEnum_gen (name r : String) (vnames : List String)
    (hr : isIntTyName r = true) :
    impl_from_unchecked (mkUnitEnum name vnames [reprAttr [wordArg r]]) =
      Except.ok [{ src := r, target := name, body := ImplBody.transmute }] := by
  simp [impl_from_unchecked, generate, classify, mkUnitEnum, find_non_unit_unitVariants,
    meta_items, reprAttr, wordArg, first_int_repr, MetaItem.name, hr, tys_impl]

/-- C3: for a data-less enum with representation kind `r` and variants
`vnames` in declaration order, the generated primary implementation is
`FromUnchecked<r>` with the transmute body, and on any input `i` with
`i < vnames.length` the transmute body yields the enum value whose
ordinal is `i`, whose underlying bit pattern (discriminant) is again
`i` — a representation-preserving reinterpretation, not a validated
match over variants. -/
theorem c3_enum_primary_transmute (name r : String) (vnames : List String) (i : Nat)
    (hr : isIntTyName r = true) (hi : i < vnames.length) :
    impl_from_unchecked (mkUnitEnum name vnames [reprAttr [wordArg r]]) =
      Except.ok [{ src := r, target := name, body := ImplBody.transmute }] ∧
    (runEnumBody vnames ImplBody.transmute i).map (fun v => v.ordinal.val) = some i ∧
    (runEnumBody vnames ImplBody.transmute i).map EnumVal.discriminant = some i := by
  refine ⟨unitEnum_gen name r vnames hr, ?_, ?_⟩ <;>
    simp [runEnumBody, hi, EnumVal.discriminant]

/-- Witness for C3 at the documentation example: `Flag` with variants
`A, B, C, D`, representation `u8`, input `2` mapping to ordinal `2`. -/
theorem c3_enum_primary_transmute_witness :
    isIntTyName "u8" = true ∧ 2 < (["A", "B", "C", "D"] : List String).length ∧
    (impl_from_unchecked (mkUnitEnum "Flag" ["A", "B", "C", "D"] [reprAttr [wordArg "u8"]]) =
      Except.ok [{ src := "u8", target := "Flag", body := ImplBody.transmute }] ∧
    (runEnumBody ["A", "B", "C", "D"] ImplBody.transmute 2).map (fun v => v.ordinal.val) =
      some 2 ∧
    (runEnumBody ["A", "B", "C", "D"] ImplBody.transmute 2).map EnumVal.discriminant =
      some 2) :=
  ⟨by decide, by decide,
    c3_enum_primary_transmute "Flag" "u8" ["A", "B", "C", "D"] 2 (by decide) (by decide)⟩

/-- C6 counterexample: `u128` is outside the ten standard integer
kinds, yet the generator accepts it as the primary representation type
(the scan only requires the name to match `^(i|u)(\d+|size)$`). -/
theorem c6_counterexample_u128_accepted :
    ("u128" ∈ tenIntKinds → False) ∧
    impl_from_unchecked (mkUnitEnum "E2" ["A"] [reprAttr [wordArg "u128"]]) =
      Except.ok [{ src := "u128", target := "E2", body := ImplBody.transmute }] :=
  ⟨by decide, by rfl⟩

/-- C6 (amended): the primary representation type accepted from the
representation attribute is any argument whose name matches the
integer-kind pattern (`i` or `u` followed by a digit sequence or
`size`); all ten standard integer kinds match the pattern, but the
pattern also admits other names such as `u128`. -/
theorem c6_repr_kind_pattern (name r : String) (vnames : List String)
    (hr : isIntTyName r = true) :
    (∀ s, s ∈ tenIntKinds → isIntTyName s = true) ∧
    impl_from_unchecked (mkUnitEnum name vnames [reprAttr [wordArg r]]) =
      Except.ok [{ src := r, target := name, body := ImplBody.transmute }] :=
  ⟨by decide, unitEnum_gen name r vnames hr⟩

/-- Witness for the amended C6 at the pattern-matching but non-standard
kind `u128`. -/
theorem c6_repr_kind_pattern_witness :
    isIntTyName "u128" = true ∧
    ((∀ s, s ∈ tenIntKinds → isIntTyName s = true) ∧
    impl_from_unchecked (mkUnitEnum "E" ["A"] [reprAttr [wordArg "u128"]]) =
      Except.ok [{ src := "u128", target := "E", body := ImplBody.transmute }]) :=
  ⟨by decide, c6_repr_kind_pattern "E" "u128" ["A"] (by decide)⟩

/-- C9: only the first `repr` attribute is scanned — when its argument
list has no integer-kind name, generation aborts with the exact message
of the source `expect`, even though a later `repr` attribute is
present (with any arguments, in particular a recognized kind). -/
theorem c9_first_repr_attr_only (name : String) (vnames : List String)
    (bad good : List NestedMetaItem) (hbad : first_int_repr bad = none) :
    impl_from_unchecked
        { ident := name, attrs := [MetaItem.list "repr" bad, MetaItem.list "repr" good],
          body := Body.enum (unitVariants vnames) } =
      Except.error "Could not find integer repr for conversion" := by
  simp [impl_from_unchecked, generate, classify, meta_items,
    find_non_unit_unitVariants, hbad]

/-- Witness for C9: `repr(C)` followed by `repr(u8)` still aborts. -/
theorem c9_first_repr_attr_only_witness :
    first_int_repr [wordArg "C"] = none ∧
    impl_from_unchecked
        { ident := "Flag",
          attrs := [MetaItem.list "repr" [wordArg "C"], MetaItem.list "repr" [wordArg "u8"]],
          body := Body.enum (unitVariants ["A"]) } =
      Except.error "Could not find integer repr for conversion" :=
  ⟨by decide, c9_first_repr_attr_only "Flag" ["A"] [wordArg "C"] [wordArg "u8"] (by decide)⟩

/-- The four generation-failure conditions as the specification states
them: (1) an enum has a non-unit variant; (2) an enum has no `repr`
attribute; (3) the applicable (first) `repr` attribute has no argument
matching a recognized integer-kind name; (4) a struct has zero fields
or more than one field. -/
def genFails (ast : DeriveInput) : Bool :=
  match ast.body with
  | Body.enum variants =>
      (variants.any fun v => !v.data.isUnit) ||
      (meta_items ast.attrs "repr").isEmpty ||
      (match (meta_items ast.attrs "repr").head? with
       | some items => (first_int_repr items).isNone
       | none => false)
  | Body.struct data =>
      decide (data.fields.length = 0 ∨ 2 ≤ data.fields.length)

/-- C2: generation fails exactly when one of the four conditions of
`genFails` holds; on failure nothing is emitted (the result is an
`Except.error`, carrying no implementation list), and in the non-unit
variant case the diagnostic names the offending variant. -/
theorem c2_generation_failure (ast : DeriveInput) :
    (isErr (impl_from_unchecked ast) = genFails ast) ∧
    (∀ variants v, ast.body = Body.enum variants → find_non_unit variants = some v →
      impl_from_unchecked ast =
        Except.error ("Found non-unit variant \x27" ++ v.ident ++ "\x27")) := by
  constructor
  · cases hb : ast.body with
    | enum variants =>
        cases hf : find_non_unit variants with
        | some v =>
            have hmem := List.mem_of_find?_eq_some hf
            have hp := List.find?_some hf
            have hany : (variants.any fun v => !v.data.isUnit) = true :=
              List.any_eq_true.mpr ⟨v, hmem, hp⟩
            simp [impl_from_unchecked, generate, classify, genFails, hb, hf, hany, isErr]
        | none =>
            have hall := List.find?_eq_none.mp hf
            have hany : (variants.any fun v => !v.data.isUnit) = false :=
              List.any_eq_false.mpr (by simpa using hall)
            cases hh : (meta_items ast.attrs "repr").head? with
            | none =>
                have hempty : (meta_items ast.attrs "repr").isEmpty = true := by
                  simp [List.head?_eq_none_iff.mp hh]
                simp [impl_from_unchecked, generate, classify, genFails, hb, hf, hh,
                  hany, hempty, isErr]
            | some items =>
                have hne : (meta_items ast.attrs "repr").isEmpty = false := by
                  cases hmi : meta_items ast.attrs "repr" with
                  | nil => rw [hmi] at hh; exact absurd hh (by simp)
                  | cons a l => simp
                cases hri : first_int_repr items with
                | none =>
                    simp [impl_from_unchecked, generate, classify, genFails, hb, hf, hh,
                      hany, hne, hri, isErr]
                | some r =>
                    simp [impl_from_unchecked, generate, classify, genFails, hb, hf, hh,
                      hany, hne, hri, isErr]
    | struct data =>
        cases hfs : data.fields with
        | nil => simp [impl_from_unchecked, generate, classify, genFails, hb, hfs, isErr]
        | cons f fs =>
            cases fs with
            | nil => simp [impl_from_unchecked, generate, classify, genFails, hb, hfs, isErr]
            | cons g gs =>
                simp [impl_from_unchecked, generate, classify, genFails, hb, hfs, isErr]
  · intro variants v hb hf
    simp [impl_from_unchecked, generate, classify, hb, hf]

/-- A declaration exercising failure condition (1): the enum `E3` has a
tuple variant `B`. -/
def astNonUnit : DeriveInput :=
  { ident := "E3", attrs := [],
    body := Body.enum [{ ident := "A", data := VariantData.unit },
                       { ident := "B", data := VariantData.tuple [{ ident := none, ty := "u8" }] }] }

/-- Witness for C2 at `astNonUnit`: generation aborts naming `B`. -/
theorem c2_generation_failure_witness :
    impl_from_unchecked astNonUnit =
      Except.error ("Found non-unit variant \x27" ++ "B" ++ "\x27") :=
  (c2_generation_failure astNonUnit).2 _
    { ident := "B", data := VariantData.tuple [{ ident := none, ty := "u8" }] } rfl rfl

/-- C4: the blanket implementation makes `IntoUnchecked` available for
every pair with a `FromUnchecked` implementation, and the into-path is
definitionally the from-path applied to the same value. -/
theorem c4_into_unchecked_bridges (A B : Type) [FromUnchecked B A] (x : A) :
    (IntoUnchecked.into_unchecked x : B) = FromUnchecked.from_unchecked x :=
  rfl

/-- Witness for C4 at the built-in `Vec<u8>` to `String` conversion on
the bytes of `"hi"`. -/
theorem c4_into_unchecked_bridges_witness :
    (IntoUnchecked.into_unchecked ({ bytes := [104, 105] } : VecBytes) : OwnedString) =
      FromUnchecked.from_unchecked ({ bytes := [104, 105] } : VecBytes) :=
  c4_into_unchecked_bridges VecBytes OwnedString { bytes := [104, 105] }

/-- C5: for a single-field wrapper (named or positional field) with no
generation directives, generation yields exactly the one primary
implementation `FromUnchecked<field type>`, and its body places the
input value in the field so that reading the field back returns the
value unchanged. -/
theorem c5_wrapper_roundtrip (name fty : String) (fid : Option String) (data : VariantData)
    (hdata : data.fields = [{ ident := fid, ty := fty }]) (F : Type) (v : F) :
    impl_from_unchecked { ident := name, attrs := [], body := Body.struct data } =
      Except.ok [{ src := fty, target := name, body := structInit fid }] ∧
    (runStructBody (structInit fid) v).map WrapperVal.inner = some v := by
  constructor
  · simp [impl_from_unchecked, generate, classify, hdata, tys_impl]
  · cases fid <;> rfl

/-- The documentation example `U4` with the single named field
`bits: u8` and no directives. -/
def astU4 : DeriveInput :=
  { ident := "U4", attrs := [],
    body := Body.struct (VariantData.structFields [{ ident := some "bits", ty := "u8" }]) }

/-- Witness for C5 at the documentation example `U4` with named field
`bits` and value `10` (`0b1010`). -/
theorem c5_wrapper_roundtrip_witness :
    (VariantData.structFields [{ ident := some "bits", ty := "u8" }]).fields =
      [{ ident := some "bits", ty := "u8" }] ∧
    (impl_from_unchecked astU4 =
      Except.ok [{ src := "u8", target := "U4", body := structInit (some "bits") }] ∧
    (runStructBody (structInit (some "bits")) (10 : Nat)).map WrapperVal.inner =
      some 10) :=
  ⟨rfl, c5_wrapper_roundtrip "U4" "u8" (some "bits")
    (VariantData.structFields [{ ident := some "bits", ty := "u8" }]) rfl Nat 10⟩

/-- C8: the built-in `Box<[u8]>` to `String` conversion equals first
converting the box into a `Vec<u8>` and then applying the `Vec<u8>` to
`String` conversion, and neither path validates: each adopts the raw
bytes unchanged, whatever they are. -/
theorem c8_box_string_via_vec (b : BoxedBytes) :
    (FromUnchecked.from_unchecked b : OwnedString) =
      FromUnchecked.from_unchecked b.into_vec ∧
    (FromUnchecked.from_unchecked b : OwnedString).utf8 = b.bytes ∧
    ∀ v : VecBytes, (FromUnchecked.from_unchecked v : OwnedString).utf8 = v.bytes :=
  ⟨rfl, rfl, fun _ => rfl⟩

/-- Witness for C8 on bytes that are not valid UTF-8 (`0xFF 0xFE`). -/
theorem c8_box_string_via_vec_witness :
    (FromUnchecked.from_unchecked ({ bytes := [255, 254] } : BoxedBytes) : OwnedString) =
      FromUnchecked.from_unchecked (BoxedBytes.into_vec { bytes := [255, 254] }) ∧
    (FromUnchecked.from_unchecked ({ bytes := [255, 254] } : BoxedBytes) : OwnedString).utf8 =
      ({ bytes := [255, 254] } : BoxedBytes).bytes ∧
    ∀ v : VecBytes, (FromUnchecked.from_unchecked v : OwnedString).utf8 = v.bytes :=
  c8_box_string_via_vec { bytes := [255, 254] }

/-- An enum with one secondary source declared: `#[uncon(other(u16))]`
and `#[repr(u8)]` on `Flag` with one variant. -/
def astFlagOther : DeriveInput :=
  mkUnitEnum "Flag" ["A"] [unconOtherAttr [wordArg "u16"], reprAttr [wordArg "u8"]]

/-- C1 (code-bug evaluation): on `astFlagOther` the generator as
written emits only the primary implementation — the accumulation loop
extends an out-of-scope name and never fills `other_items` — while with
the evidently intended accumulation it emits the primary plus one
`FromUnchecked<u16>` implementation casting to `u8` and delegating, as
the claim and the crate's own documentation tests state. -/
theorem c1_secondary_sources_dropped :
    impl_from_unchecked astFlagOther =
      Except.ok [{ src := "u8", target := "Flag", body := ImplBody.transmute }] ∧
    impl_from_unchecked_intended astFlagOther =
      Except.ok [{ src := "u8", target := "Flag", body := ImplBody.transmute },
                 { src := "u16", target := "Flag", body := ImplBody.castPrimary "u8" }] :=
  ⟨rfl, rfl⟩

/-- An enum with two `#[uncon(other(...))]` attributes whose lists
overlap: `other(u16)` then `other(u16, u32)`. -/
def astModeDup : DeriveInput :=
  mkUnitEnum "Mode" ["A"]
    [unconOtherAttr [wordArg "u16"],
     unconOtherAttr [wordArg "u16", wordArg "u32"],
     reprAttr [wordArg "u8"]]

/-- C7 (code-bug evaluation): on `astModeDup` the generator as written
accumulates nothing — only the primary implementation appears — while
the intended accumulation preserves first-seen order across both
directive occurrences and keeps the duplicate `u16`, yielding
secondary implementations for `u16, u16, u32` in that order. -/
theorem c7_accumulation_lost :
    impl_from_unchecked astModeDup =
      Except.ok [{ src := "u8", target := "Mode", body := ImplBody.transmute }] ∧
    impl_from_unchecked_intended astModeDup =
      Except.ok [{ src := "u8", target := "Mode", body := ImplBody.transmute },
                 { src := "u16", target := "Mode", body := ImplBody.castPrimary "u8" },
                 { src := "u16", target := "Mode", body := ImplBody.castPrimary "u8" },
                 { src := "u32", target := "Mode", body := ImplBody.castPrimary "u8" }] :=
  ⟨rfl, rfl⟩

/-- An enum whose `uncon(other(...))` list mixes a literal argument
with a plain identifier: `other(5, u16)`. -/
def astLitOther : DeriveInput :=
  mkUnitEnum "Bits" ["A"]
    [unconOtherAttr [NestedMetaItem.literal "5", wordArg "u16"], reprAttr [wordArg "u8"]]

/-- C10 (code-bug evaluation): on `astLitOther` no error is raised and
the literal yields no implementation in either reading, but as written
the plain identifier `u16` in the same list is not processed either
(the list never reaches the emission filter); with the intended
accumulation the literal is silently skipped while `u16` still yields
its secondary implementation. -/
theorem c10_non_word_arguments_skipped :
    impl_from_unchecked astLitOther =
      Except.ok [{ src := "u8", target := "Bits", body := ImplBody.transmute }] ∧
    impl_from_unchecked_intended astLitOther =
      Except.ok [{ src := "u8", target := "Bits", body := ImplBody.transmute },
                 { src := "u16", target := "Bits", body := ImplBody.castPrimary "u8" }] :=
  ⟨rfl, rfl⟩

end Uncon
